import Mathlib

/-!
Verification of the inventory quantity ledger of the Stock-manager server.

The definitions below are a shallow embedding of the JavaScript source:
* `stockStatus`            — the `stockStatus` virtual of `src/models/Inventory.js`
* `validateTransaction`    — the `validateTransaction` middleware (express-validator rules)
* `validateInventory`      — the `validateInventory` middleware
* `applyTransaction`       — the type switch of `POST /` in `src/routes/transactions.js`
* `postTransaction`        — the same route including validation and the active-item lookup
* `createItem`             — `POST /` in `src/routes/inventory.js` (initial-stock transaction)
* `updateItem`             — `PUT /:id` in `src/routes/inventory.js` (synthesized adjustment)
* `commitTransaction`      — the `Promise.all([transaction.save(), inventory.save()])` step,
                             with each save allowed to fail independently (no session/rollback)
* `categoryRollup`         — the `categoryStats` aggregation of `GET /categories`
                             in `src/routes/reports.js`

Quantities are JavaScript numbers validated to be integers, so they are embedded as `Int`.
-/

/-- An inventory item, restricted to the fields the ledger logic reads or writes
(`src/models/Inventory.js`). -/
structure Item where
  quantity : Int
  minThreshold : Int
  maxThreshold : Int
  cost : Int
  isActive : Bool
  deriving Repr, DecidableEq

/-- A transaction record, restricted to the ledger-relevant fields
(`src/models/Transaction.js`).  `quantity` is the signed delta. -/
structure Txn where
  type : String
  quantity : Int
  previousQuantity : Int
  newQuantity : Int
  reason : Option String
  cost : Int
  deriving Repr, DecidableEq

/-- The `stockStatus` virtual of `src/models/Inventory.js` (lines 80–85). -/
def stockStatus (quantity minThreshold maxThreshold : Int) : String :=
  if quantity ≤ 0 then "out-of-stock"
  else if quantity ≤ minThreshold then "low-stock"
  else if quantity ≥ maxThreshold then "overstock"
  else "in-stock"

/-- The body of a `POST /transactions` request, restricted to the validated fields. -/
structure TxRequest where
  type : String
  quantity : Int
  reason : Option String
  cost : Int
  deriving Repr, DecidableEq

/-- The type enumeration accepted by the `validateTransaction` middleware
(and by the `type` enum of `src/models/Transaction.js`). -/
def txTypeList : List String := ["check-in", "check-out", "adjustment", "transfer"]

/-- The `validateTransaction` middleware of the validation module:
`type` must be in `txTypeList`, `quantity` must be an integer ≥ 1
("Quantity must be a positive integer"), `reason` is optional with length ≤ 500. -/
def validateTransaction (r : TxRequest) : Bool :=
  txTypeList.contains r.type
  && decide (1 ≤ r.quantity)
  && (match r.reason with
      | none => true
      | some s => decide (s.length ≤ 500))

/-- Errors surfaced by the transaction route. `insufficientStock` carries the
`available` and `requested` quantities reported in the 400 response. -/
inductive TxError where
  | validationFailed
  | notFound
  | insufficientStock (available requested : Int)
  | invalidType
  deriving Repr, DecidableEq

/-- The type switch of `POST /` in `src/routes/transactions.js` (lines 125–167):
computes the new item quantity and the paired transaction record, or an error.
The `default` branch (reached by `"transfer"` and any other string) returns
"Invalid transaction type" before any state is touched. -/
def applyTransaction (item : Item) (r : TxRequest) : Except TxError (Item × Txn) :=
  let previousQuantity := item.quantity
  if r.type = "check-in" then
    let newQuantity := previousQuantity + r.quantity
    .ok ({ item with quantity := newQuantity },
         { type := r.type, quantity := r.quantity, previousQuantity := previousQuantity,
           newQuantity := newQuantity, reason := r.reason, cost := r.cost })
  else if r.type = "check-out" then
    if previousQuantity < r.quantity then
      .error (.insufficientStock previousQuantity r.quantity)
    else
      let newQuantity := previousQuantity - r.quantity
      .ok ({ item with quantity := newQuantity },
           { type := r.type, quantity := -r.quantity, previousQuantity := previousQuantity,
             newQuantity := newQuantity, reason := r.reason, cost := r.cost })
  else if r.type = "adjustment" then
    let newQuantity := r.quantity
    .ok ({ item with quantity := newQuantity },
         { type := r.type, quantity := r.quantity - previousQuantity,
           previousQuantity := previousQuantity, newQuantity := newQuantity,
           reason := r.reason, cost := r.cost })
  else
    .error .invalidType

/-- The full `POST /` route of `src/routes/transactions.js`: the
`validateTransaction` middleware runs first, then the item is looked up with
`isActive: true` (404 when inactive/missing), then the type switch runs. -/
def postTransaction (item : Item) (r : TxRequest) : Except TxError (Item × Txn) :=
  if ¬ validateTransaction r then .error .validationFailed
  else if ¬ item.isActive then .error .notFound
  else applyTransaction item r

/-- The body of an inventory create/update request, restricted to validated and
ledger-relevant fields. -/
structure InvBody where
  name : String
  quantity : Int
  unit : String
  minThreshold : Option Int
  maxThreshold : Option Int
  cost : Option Int
  deriving Repr, DecidableEq

/-- The `validateInventory` middleware: non-empty name and unit, quantity an
integer ≥ 0, optional minThreshold ≥ 0, optional cost ≥ 0. -/
def validateInventory (b : InvBody) : Bool :=
  decide (1 ≤ b.name.length)
  && decide (0 ≤ b.quantity)
  && decide (1 ≤ b.unit.length)
  && (match b.minThreshold with
      | none => true
      | some m => decide (0 ≤ m))
  && (match b.cost with
      | none => true
      | some c => decide (0 ≤ c))

/-- `POST /` of `src/routes/inventory.js` (lines 108–143): builds the item
(schema defaults minThreshold 5, maxThreshold 100, cost 0, isActive true) and,
when `item.quantity > 0`, a single `check-in` transaction with
`previousQuantity: 0`, `newQuantity: item.quantity`, `reason: 'Initial stock'`. -/
def createItem (b : InvBody) : Item × List Txn :=
  let item : Item :=
    { quantity := b.quantity, minThreshold := b.minThreshold.getD 5,
      maxThreshold := b.maxThreshold.getD 100, cost := b.cost.getD 0, isActive := true }
  let txns : List Txn :=
    if item.quantity > 0 then
      [{ type := "check-in", quantity := item.quantity, previousQuantity := 0,
         newQuantity := item.quantity, reason := some "Initial stock",
         cost := item.cost }]
    else []
  (item, txns)

/-- `PUT /:id` of `src/routes/inventory.js` (lines 146–186): `Object.assign`
overwrites the fields present in the body, then a synthetic `adjustment`
transaction is appended iff the quantity changed. -/
def updateItem (item : Item) (b : InvBody) : Item × List Txn :=
  let previousQuantity := item.quantity
  let item' : Item :=
    { quantity := b.quantity, minThreshold := b.minThreshold.getD item.minThreshold,
      maxThreshold := b.maxThreshold.getD item.maxThreshold,
      cost := b.cost.getD item.cost, isActive := item.isActive }
  let txns : List Txn :=
    if previousQuantity ≠ item'.quantity then
      [{ type := "adjustment", quantity := item'.quantity - previousQuantity,
         previousQuantity := previousQuantity, newQuantity := item'.quantity,
         reason := some "Manual adjustment", cost := item'.cost }]
    else []
  (item', txns)

/-- The observable persistent state: the item's stored quantity and the stored
transaction log. -/
structure Store where
  itemQuantity : Int
  txns : List Txn
  deriving Repr, DecidableEq

/-- Outcome of the two store writes issued by
`Promise.all([transaction.save(), inventory.save()])`: each save succeeds or
fails independently. -/
structure SaveOutcome where
  txnSaveOk : Bool
  itemSaveOk : Bool
  deriving Repr, DecidableEq

/-- The persistence step of `POST /` in `src/routes/transactions.js`
(lines 169–176): `transaction.save()` and `inventory.save()` are issued
concurrently via `Promise.all` with no session and no compensating write, so
each write lands iff its own save succeeds. -/
def commitTransaction (s : Store) (item' : Item) (txn : Txn) (o : SaveOutcome) : Store :=
  { itemQuantity := if o.itemSaveOk then item'.quantity else s.itemQuantity,
    txns := if o.txnSaveOk then s.txns ++ [txn] else s.txns }

/-- An inventory item as seen by the category aggregation of
`GET /categories` in `src/routes/reports.js`. -/
structure CatItem where
  category : Nat
  quantity : Int
  cost : Int
  minThreshold : Int
  deriving Repr, DecidableEq

/-- One row of the category rollup.  `averageValue` embeds MongoDB `$divide`,
which errors on a zero divisor, as an `Option`. -/
structure CatRow where
  catId : Nat
  itemCount : Nat
  totalQuantity : Int
  totalValue : Int
  lowStockItems : Nat
  averageValue : Option ℚ
  deriving Repr, DecidableEq

/-- MongoDB `$divide`: a zero divisor is a runtime error, embedded as `none`. -/
def mongoDivide (a b : ℚ) : Option ℚ :=
  if b = 0 then none else some (a / b)

/-- The `$group` stage keys: the distinct categories appearing among the items. -/
def rollupCategories (items : List CatItem) : List Nat :=
  (items.map (·.category)).dedup

/-- The `categoryStats` aggregation of `GET /categories` in
`src/routes/reports.js` (lines 564–605): group by category, summing
`1`, `quantity`, `quantity * cost` and the low-stock indicator, then project
`averageValue: \x7b $divide: [totalValue, itemCount] \x7d`. -/
def categoryRollup (items : List CatItem) : List CatRow :=
  (rollupCategories items).map fun c =>
    let group := items.filter (·.category = c)
    let itemCount := group.length
    let totalValue := (group.map (fun i => i.quantity * i.cost)).sum
    { catId := c,
      itemCount := itemCount,
      totalQuantity := (group.map (·.quantity)).sum,
      totalValue := totalValue,
      lowStockItems := (group.filter (fun i => i.quantity ≤ i.minThreshold)).length,
      averageValue := mongoDivide (totalValue : ℚ) (itemCount : ℚ) }

example : stockStatus 0 5 100 = "out-of-stock" := by decide
example : stockStatus 5 5 100 = "low-stock" := by decide
example : stockStatus 50 5 100 = "in-stock" := by decide
example : stockStatus 100 5 100 = "overstock" := by decide

/-- C3: the stock-status classifier is a pure function of
(quantity, minThreshold, maxThreshold) applying rules in priority order
(out-of-stock, then low-stock, then overstock, else in-stock), returns exactly
one of the four statuses for every input including minThreshold > maxThreshold,
and satisfies the four quoted examples. -/
theorem stockStatus_spec (q minT maxT : Int) :
    (q ≤ 0 → stockStatus q minT maxT = "out-of-stock")
    ∧ (0 < q → q ≤ minT → stockStatus q minT maxT = "low-stock")
    ∧ (0 < q → minT < q → maxT ≤ q → stockStatus q minT maxT = "overstock")
    ∧ (0 < q → minT < q → q < maxT → stockStatus q minT maxT = "in-stock")
    ∧ (stockStatus q minT maxT = "out-of-stock" ∨ stockStatus q minT maxT = "low-stock"
       ∨ stockStatus q minT maxT = "overstock" ∨ stockStatus q minT maxT = "in-stock")
    ∧ stockStatus 0 5 100 = "out-of-stock"
    ∧ stockStatus 5 5 100 = "low-stock"
    ∧ stockStatus 50 5 100 = "in-stock"
    ∧ stockStatus 100 5 100 = "overstock" := by
  refine ⟨?_, ?_, ?_, ?_, ?_, by decide, by decide, by decide, by decide⟩
  · intro h
    simp [stockStatus, h]
  · intro h1 h2
    simp [stockStatus, h2, show ¬ q ≤ 0 by omega]
  · intro h1 h2 h3
    simp [stockStatus, ge_iff_le, h3, show ¬ q ≤ 0 by omega, show ¬ q ≤ minT by omega]
  · intro h1 h2 h3
    simp [stockStatus, ge_iff_le, show ¬ q ≤ 0 by omega, show ¬ q ≤ minT by omega,
      show ¬ maxT ≤ q by omega]
  · unfold stockStatus
    split_ifs <;> simp

/-- Witness for `stockStatus_spec`: the classifier at concrete inputs,
with every hypothesis of the applied conjuncts discharged. -/
theorem stockStatus_spec_witness :
    stockStatus (-1) 5 100 = "out-of-stock"
    ∧ stockStatus 3 5 100 = "low-stock"
    ∧ stockStatus 200 5 100 = "overstock"
    ∧ stockStatus 50 5 100 = "in-stock" :=
  ⟨(stockStatus_spec (-1) 5 100).1 (by decide),
   (stockStatus_spec 3 5 100).2.1 (by decide) (by decide),
   (stockStatus_spec 200 5 100).2.2.1 (by decide) (by decide) (by decide),
   (stockStatus_spec 50 5 100).2.2.2.1 (by decide) (by decide) (by decide)⟩

/-- C2: a check-out fails with `insufficientStock` iff the requested quantity
exceeds the item's current quantity; the error reports both available and
requested; on failure no (item, transaction) pair is produced (no state is
written); otherwise the new quantity is `previousQuantity - requestedQuantity`
and the recorded delta is `-requestedQuantity`. -/
theorem checkOut_spec (item : Item) (q : Int) (reason : Option String) (c : Int) :
    (item.quantity < q ↔
      applyTransaction item ⟨"check-out", q, reason, c⟩
        = .error (.insufficientStock item.quantity q))
    ∧ (item.quantity < q →
        ∀ p : Item × Txn, applyTransaction item ⟨"check-out", q, reason, c⟩ ≠ .ok p)
    ∧ (¬ item.quantity < q →
        applyTransaction item ⟨"check-out", q, reason, c⟩
          = .ok ({ item with quantity := item.quantity - q },
                 { type := "check-out", quantity := -q, previousQuantity := item.quantity,
                   newQuantity := item.quantity - q, reason := reason, cost := c })) := by
  refine ⟨⟨fun h => ?_, fun h => ?_⟩, fun h p => ?_, fun h => ?_⟩
  · simp [applyTransaction, h]
  · by_contra hq
    simp [applyTransaction, hq] at h
  · simp [applyTransaction, h]
  · simp [applyTransaction, h]

/-- Witness for `checkOut_spec`: the spec's scenario — on an item with
quantity 4, check-out(6) fails reporting available 4 / requested 6, and
check-out(3) succeeds with newQuantity 1 and delta -3. -/
theorem checkOut_spec_witness :
    applyTransaction ⟨4, 5, 100, 0, true⟩ ⟨"check-out", 6, none, 0⟩
      = .error (.insufficientStock 4 6)
    ∧ applyTransaction ⟨4, 5, 100, 0, true⟩ ⟨"check-out", 3, none, 0⟩
        = .ok (⟨1, 5, 100, 0, true⟩, ⟨"check-out", -3, 4, 1, none, 0⟩) :=
  ⟨(checkOut_spec ⟨4, 5, 100, 0, true⟩ 6 none 0).1.mp (by decide),
   (checkOut_spec ⟨4, 5, 100, 0, true⟩ 3 none 0).2.2 (by decide)⟩

/-- C5: an adjustment sets the quantity to the absolute target
(`newQuantity = requestedQuantity`) with delta
`requestedQuantity - previousQuantity`; in particular an adjustment to the
current quantity succeeds and records delta 0 with
`previousQuantity = newQuantity`. -/
theorem adjustment_spec (item : Item) (q : Int) (reason : Option String) (c : Int) :
    (applyTransaction item ⟨"adjustment", q, reason, c⟩
      = .ok ({ item with quantity := q },
             { type := "adjustment", quantity := q - item.quantity,
               previousQuantity := item.quantity, newQuantity := q,
               reason := reason, cost := c }))
    ∧ (applyTransaction item ⟨"adjustment", item.quantity, reason, c⟩
      = .ok (item,
             { type := "adjustment", quantity := 0,
               previousQuantity := item.quantity, newQuantity := item.quantity,
               reason := reason, cost := c })) := by
  constructor
  · simp [applyTransaction]
  · simp [applyTransaction]

/-- C4: every transaction record produced by any path — the transaction route
(check-in / check-out / adjustment), item creation (initial stock), and the
direct item update (synthesized adjustment) — satisfies
`previousQuantity + quantity = newQuantity`, and its `newQuantity` equals the
item's quantity immediately after the transaction is applied. -/
theorem txn_balance (item : Item) (r : TxRequest) (b : InvBody) :
    (∀ item' txn, postTransaction item r = .ok (item', txn) →
        txn.previousQuantity + txn.quantity = txn.newQuantity
        ∧ txn.newQuantity = item'.quantity)
    ∧ (∀ txn ∈ (createItem b).2,
        txn.previousQuantity + txn.quantity = txn.newQuantity
        ∧ txn.newQuantity = (createItem b).1.quantity)
    ∧ (∀ txn ∈ (updateItem item b).2,
        txn.previousQuantity + txn.quantity = txn.newQuantity
        ∧ txn.newQuantity = (updateItem item b).1.quantity) := by
  refine ⟨fun item' txn h => ?_, fun txn h => ?_, fun txn h => ?_⟩
  · have h' : applyTransaction item r = .ok (item', txn) := by
      unfold postTransaction at h
      split_ifs at h
      exact h
    obtain ⟨ty, q, rs, c⟩ := r
    by_cases h1 : ty = "check-in"
    · subst h1
      simp only [applyTransaction, String.reduceEq, reduceIte,
        Except.ok.injEq, Prod.mk.injEq] at h'
      obtain ⟨hi, ht⟩ := h'
      subst hi
      subst ht
      exact ⟨rfl, rfl⟩
    · by_cases h2 : ty = "check-out"
      · subst h2
        simp only [applyTransaction, String.reduceEq, reduceIte] at h'
        split_ifs at h'
        simp only [Except.ok.injEq, Prod.mk.injEq] at h'
        obtain ⟨hi, ht⟩ := h'
        subst hi
        subst ht
        exact ⟨by dsimp only; omega, rfl⟩
      · by_cases h3 : ty = "adjustment"
        · subst h3
          simp only [applyTransaction, String.reduceEq, reduceIte,
            Except.ok.injEq, Prod.mk.injEq] at h'
          obtain ⟨hi, ht⟩ := h'
          subst hi
          subst ht
          exact ⟨by dsimp only; omega, rfl⟩
        · simp only [applyTransaction, h1, h2, h3, if_false, reduceCtorEq] at h'
  · simp only [createItem] at h ⊢
    split_ifs at h with hq
    · simp only [List.mem_singleton] at h
      subst h
      exact ⟨by simp, rfl⟩
    · simp at h
  · simp only [updateItem] at h ⊢
    split_ifs at h with hq
    · simp only [List.mem_singleton] at h
      subst h
      exact ⟨by simp, rfl⟩
    · simp at h

/-- Witness for `txn_balance`: a concrete check-out, a concrete creation and a
concrete update, each hypothesis discharged by evaluation. -/
theorem txn_balance_witness :
    ((⟨"check-out", -3, 4, 1, none, 0⟩ : Txn).previousQuantity
        + (⟨"check-out", -3, 4, 1, none, 0⟩ : Txn).quantity
      = (⟨"check-out", -3, 4, 1, none, 0⟩ : Txn).newQuantity
    ∧ (⟨"check-out", -3, 4, 1, none, 0⟩ : Txn).newQuantity
      = (⟨1, 5, 100, 0, true⟩ : Item).quantity)
    ∧ ((⟨"check-in", 10, 0, 10, some "Initial stock", 0⟩ : Txn).previousQuantity
        + (⟨"check-in", 10, 0, 10, some "Initial stock", 0⟩ : Txn).quantity
      = (⟨"check-in", 10, 0, 10, some "Initial stock", 0⟩ : Txn).newQuantity
    ∧ (⟨"check-in", 10, 0, 10, some "Initial stock", 0⟩ : Txn).newQuantity
      = (createItem ⟨"pens", 10, "pieces", none, none, none⟩).1.quantity) :=
  ⟨(txn_balance ⟨4, 5, 100, 0, true⟩ ⟨"check-out", 3, none, 0⟩
      ⟨"pens", 10, "pieces", none, none, none⟩).1
      ⟨1, 5, 100, 0, true⟩ ⟨"check-out", -3, 4, 1, none, 0⟩ rfl,
   (txn_balance ⟨4, 5, 100, 0, true⟩ ⟨"check-out", 3, none, 0⟩
      ⟨"pens", 10, "pieces", none, none, none⟩).2.1
      ⟨"check-in", 10, 0, 10, some "Initial stock", 0⟩ (by simp [createItem])⟩

/-- C1: each ledger operation — item creation, the transaction route
(check-in / check-out / adjustment), and the direct field update — applied
with a validated request to an item with non-negative quantity, yields an item
with non-negative quantity. -/
theorem quantity_nonneg (item : Item) (r : TxRequest) (b : InvBody)
    (hitem : 0 ≤ item.quantity) (hb : validateInventory b = true) :
    0 ≤ (createItem b).1.quantity
    ∧ (∀ item' txn, postTransaction item r = .ok (item', txn) → 0 ≤ item'.quantity)
    ∧ 0 ≤ (updateItem item b).1.quantity := by
  have hq : 0 ≤ b.quantity := by
    simp only [validateInventory, Bool.and_eq_true, decide_eq_true_eq] at hb
    exact hb.1.1.1.2
  refine ⟨by simpa [createItem] using hq, fun item' txn h => ?_,
    by simpa [updateItem] using hq⟩
  have hv : validateTransaction r = true := by
    by_contra hv
    unfold postTransaction at h
    rw [if_pos hv] at h
    exact absurd h (by simp)
  have h' : applyTransaction item r = .ok (item', txn) := by
    unfold postTransaction at h
    split_ifs at h
    exact h
  have hq1 : 1 ≤ r.quantity := by
    simp only [validateTransaction, Bool.and_eq_true, decide_eq_true_eq] at hv
    exact hv.1.2
  obtain ⟨ty, q, rs, c⟩ := r
  simp only at hq1
  by_cases h1 : ty = "check-in"
  · subst h1
    simp only [applyTransaction, String.reduceEq, reduceIte,
      Except.ok.injEq, Prod.mk.injEq] at h'
    obtain ⟨hi, ht⟩ := h'
    subst hi
    dsimp only
    omega
  · by_cases h2 : ty = "check-out"
    · subst h2
      simp only [applyTransaction, String.reduceEq, reduceIte] at h'
      split_ifs at h' with hlt
      simp only [Except.ok.injEq, Prod.mk.injEq] at h'
      obtain ⟨hi, ht⟩ := h'
      subst hi
      dsimp only
      omega
    · by_cases h3 : ty = "adjustment"
      · subst h3
        simp only [applyTransaction, String.reduceEq, reduceIte,
          Except.ok.injEq, Prod.mk.injEq] at h'
        obtain ⟨hi, ht⟩ := h'
        subst hi
        dsimp only
        omega
      · simp only [applyTransaction, h1, h2, h3, if_false, reduceCtorEq] at h'

/-- Witness for `quantity_nonneg`: a validated creation, a concrete
check-out result and a validated update, all at concrete inputs. -/
theorem quantity_nonneg_witness :
    0 ≤ (createItem ⟨"pens", 2, "pieces", none, none, none⟩).1.quantity
    ∧ 0 ≤ (⟨1, 5, 100, 0, true⟩ : Item).quantity
    ∧ 0 ≤ (updateItem ⟨4, 5, 100, 0, true⟩
            ⟨"pens", 2, "pieces", none, none, none⟩).1.quantity :=
  ⟨(quantity_nonneg ⟨4, 5, 100, 0, true⟩ ⟨"check-out", 3, none, 0⟩
      ⟨"pens", 2, "pieces", none, none, none⟩ (by decide) (by decide)).1,
   (quantity_nonneg ⟨4, 5, 100, 0, true⟩ ⟨"check-out", 3, none, 0⟩
      ⟨"pens", 2, "pieces", none, none, none⟩ (by decide) (by decide)).2.1
      ⟨1, 5, 100, 0, true⟩ ⟨"check-out", -3, 4, 1, none, 0⟩ rfl,
   (quantity_nonneg ⟨4, 5, 100, 0, true⟩ ⟨"check-out", 3, none, 0⟩
      ⟨"pens", 2, "pieces", none, none, none⟩ (by decide) (by decide)).2.2⟩

/-- C7 counterexample: creating an item with quantity 10 yields exactly one
check-in transaction, but its reason is the string "Initial stock", not
"initial stock" as the claim states. -/
theorem createItem_reason_counterexample :
    (createItem ⟨"pens", 10, "pieces", none, none, none⟩).2
      = [⟨"check-in", 10, 0, 10, some "Initial stock", 0⟩]
    ∧ some "Initial stock" ≠ some "initial stock" := by decide

/-- C7 (amended): creating an inventory item with quantity q > 0 yields
exactly one check-in transaction with previousQuantity 0, newQuantity q and
reason "Initial stock"; creating with quantity 0 yields no transaction. -/
theorem createItem_initial_stock (b : InvBody) :
    (0 < b.quantity →
      (createItem b).2
        = [{ type := "check-in", quantity := b.quantity, previousQuantity := 0,
             newQuantity := b.quantity, reason := some "Initial stock",
             cost := b.cost.getD 0 }])
    ∧ (b.quantity = 0 → (createItem b).2 = []) := by
  constructor
  · intro h
    simp [createItem, h]
  · intro h
    simp [createItem, h]

/-- Witness for `createItem_initial_stock`: creation with quantity 10 and
with quantity 0. -/
theorem createItem_initial_stock_witness :
    (createItem ⟨"pens", 10, "pieces", none, none, none⟩).2
      = [⟨"check-in", 10, 0, 10, some "Initial stock", 0⟩]
    ∧ (createItem ⟨"pens", 0, "pieces", none, none, none⟩).2 = [] :=
  ⟨(createItem_initial_stock ⟨"pens", 10, "pieces", none, none, none⟩).1 (by decide),
   (createItem_initial_stock ⟨"pens", 0, "pieces", none, none, none⟩).2 rfl⟩

/-- C8 counterexample: an adjustment request with requestedQuantity 0 against
an existing active item is rejected by the `validateTransaction` middleware
("Quantity must be a positive integer") instead of succeeding. -/
theorem adjustment_zero_rejected_counterexample :
    postTransaction ⟨5, 5, 100, 0, true⟩ ⟨"adjustment", 0, none, 0⟩
      = .error .validationFailed := rfl

/-- C8 (amended): `validateTransaction` requires requestedQuantity ≥ 1 for
every transaction type including adjustment, so an adjustment request with
requestedQuantity ≤ 0 fails validation; with requestedQuantity ≥ 1 it
succeeds against an active item. -/
theorem adjustment_quantity_rule (item : Item) (q : Int)
    (hactive : item.isActive = true) :
    (q ≤ 0 →
      postTransaction item ⟨"adjustment", q, none, 0⟩ = .error .validationFailed)
    ∧ (1 ≤ q →
      postTransaction item ⟨"adjustment", q, none, 0⟩
        = .ok ({ item with quantity := q },
               { type := "adjustment", quantity := q - item.quantity,
                 previousQuantity := item.quantity, newQuantity := q,
                 reason := none, cost := 0 })) := by
  constructor
  · intro h
    have hv : ¬ validateTransaction ⟨"adjustment", q, none, 0⟩ = true := by
      simp only [validateTransaction, txTypeList, Bool.and_eq_true, decide_eq_true_eq]
      intro hv
      omega
    unfold postTransaction
    rw [if_pos hv]
  · intro h
    have hv : validateTransaction ⟨"adjustment", q, none, 0⟩ = true := by
      simp only [validateTransaction, txTypeList, Bool.and_eq_true, decide_eq_true_eq]
      refine ⟨⟨by decide, h⟩, by decide⟩
    simp [postTransaction, applyTransaction, hv, hactive]

/-- Witness for `adjustment_quantity_rule`: an active item with quantity 5,
adjustment requests with quantity 0 (rejected) and 3 (applied). -/
theorem adjustment_quantity_rule_witness :
    postTransaction ⟨5, 5, 100, 0, true⟩ ⟨"adjustment", 0, none, 0⟩
      = .error .validationFailed
    ∧ postTransaction ⟨5, 5, 100, 0, true⟩ ⟨"adjustment", 3, none, 0⟩
      = .ok (⟨3, 5, 100, 0, true⟩, ⟨"adjustment", -2, 5, 3, none, 0⟩) :=
  ⟨(adjustment_quantity_rule ⟨5, 5, 100, 0, true⟩ 0 rfl).1 (by decide),
   (adjustment_quantity_rule ⟨5, 5, 100, 0, true⟩ 3 rfl).2 (by decide)⟩

/-- C10: a "transfer" request passes the `validateTransaction` middleware
(transfer is in the accepted enumeration) but the type switch always rejects
it with `invalidType` ("Invalid transaction type"), producing no updated item
and no transaction record. -/
theorem transfer_rejected (item : Item) (q : Int) (hq : 1 ≤ q)
    (hactive : item.isActive = true) :
    validateTransaction ⟨"transfer", q, none, 0⟩ = true
    ∧ postTransaction item ⟨"transfer", q, none, 0⟩ = .error .invalidType
    ∧ ∀ p : Item × Txn, postTransaction item ⟨"transfer", q, none, 0⟩ ≠ .ok p := by
  have hv : validateTransaction ⟨"transfer", q, none, 0⟩ = true := by
    simp only [validateTransaction, txTypeList, Bool.and_eq_true, decide_eq_true_eq]
    refine ⟨⟨by decide, hq⟩, by decide⟩
  have h2 : postTransaction item ⟨"transfer", q, none, 0⟩ = .error .invalidType := by
    simp [postTransaction, applyTransaction, hv, hactive]
  exact ⟨hv, h2, fun p hp => by rw [h2] at hp; exact absurd hp (by simp)⟩

/-- Witness for `transfer_rejected`: an active item with quantity 5 and a
transfer request of quantity 2. -/
theorem transfer_rejected_witness :
    validateTransaction ⟨"transfer", 2, none, 0⟩ = true
    ∧ postTransaction ⟨5, 5, 100, 0, true⟩ ⟨"transfer", 2, none, 0⟩
        = .error .invalidType :=
  ⟨(transfer_rejected ⟨5, 5, 100, 0, true⟩ 2 (by decide) rfl).1,
   (transfer_rejected ⟨5, 5, 100, 0, true⟩ 2 (by decide) rfl).2.1⟩

/-- C9 counterexample: the aggregation produces no row at all for a category
with no items — the empty collection yields an empty rollup, and a collection
whose items all belong to category 1 yields a single row for category 1 — so
an empty category does not yield a row with averageValue 0. -/
theorem categoryRollup_empty_counterexample :
    categoryRollup ([] : List CatItem) = []
    ∧ categoryRollup [⟨1, 4, 10, 5⟩] = [⟨1, 1, 4, 40, 1, some 40⟩] := by
  constructor
  · rfl
  · have h1 : rollupCategories [⟨1, 4, 10, 5⟩] = [1] := rfl
    simp only [categoryRollup, h1, List.map]
    norm_num [List.filter, mongoDivide]

/-- C9 (amended): the per-category rollup never divides by zero — every
produced row groups at least one item, so its averageValue is a defined
quotient totalValue / itemCount; a category with no items produces no row at
all (rather than a row with averageValue 0). -/
theorem categoryRollup_average_defined (items : List CatItem) :
    (∀ row ∈ categoryRollup items,
        1 ≤ row.itemCount
        ∧ row.averageValue = some ((row.totalValue : ℚ) / (row.itemCount : ℚ)))
    ∧ (∀ c : Nat, (∀ i ∈ items, i.category ≠ c) →
        ∀ row ∈ categoryRollup items, row.catId ≠ c) := by
  constructor
  · intro row hrow
    simp only [categoryRollup, rollupCategories, List.mem_map] at hrow
    obtain ⟨c, hc, rfl⟩ := hrow
    rw [List.mem_dedup] at hc
    obtain ⟨i, hi, hic⟩ := List.mem_map.mp hc
    have hmem : i ∈ items.filter (·.category = c) := by
      rw [List.mem_filter]
      exact ⟨hi, by simp [hic]⟩
    have hlen : 0 < (items.filter (·.category = c)).length :=
      List.length_pos_of_mem hmem
    dsimp only
    refine ⟨hlen, ?_⟩
    rw [mongoDivide, if_neg]
    exact Nat.cast_ne_zero.mpr (by omega)
  · intro c hc row hrow
    have hc2 : ¬ c ∈ items.map (·.category) := by
      rw [List.mem_map]
      rintro ⟨i, hi, hik⟩
      exact hc i hi hik
    simp only [categoryRollup, rollupCategories, List.mem_map] at hrow
    obtain ⟨c', hc', rfl⟩ := hrow
    dsimp only
    intro hcc
    subst hcc
    rw [List.mem_dedup] at hc'
    exact hc2 hc'

/-- Evaluation of the rollup on a concrete two-item collection. -/
theorem categoryRollup_pair_eval :
    categoryRollup [⟨1, 4, 10, 5⟩, ⟨1, 0, 0, 5⟩] = [⟨1, 2, 4, 40, 2, some 20⟩] := by
  have h1 : rollupCategories [⟨1, 4, 10, 5⟩, ⟨1, 0, 0, 5⟩] = [1] := rfl
  simp only [categoryRollup, h1, List.map]
  norm_num [List.filter, mongoDivide]

/-- Witness for `categoryRollup_average_defined`: two items in category 1,
whose single row has itemCount 2 and averageValue 40 / 2; category 0 is empty
and matches no row. -/
theorem categoryRollup_average_defined_witness :
    (1 ≤ (⟨1, 2, 4, 40, 2, some 20⟩ : CatRow).itemCount
    ∧ (⟨1, 2, 4, 40, 2, some 20⟩ : CatRow).averageValue
        = some (((⟨1, 2, 4, 40, 2, some 20⟩ : CatRow).totalValue : ℚ)
                  / ((⟨1, 2, 4, 40, 2, some 20⟩ : CatRow).itemCount : ℚ)))
    ∧ (⟨1, 2, 4, 40, 2, some 20⟩ : CatRow).catId ≠ 0 :=
  ⟨(categoryRollup_average_defined [⟨1, 4, 10, 5⟩, ⟨1, 0, 0, 5⟩]).1
      ⟨1, 2, 4, 40, 2, some 20⟩
      (by rw [categoryRollup_pair_eval]; exact List.mem_singleton_self _),
   (categoryRollup_average_defined [⟨1, 4, 10, 5⟩, ⟨1, 0, 0, 5⟩]).2
      0 (by decide) ⟨1, 2, 4, 40, 2, some 20⟩
      (by rw [categoryRollup_pair_eval]; exact List.mem_singleton_self _)⟩

/-- C6: the persistence step is not atomic.  The route computes the paired
(item, transaction) and then issues `transaction.save()` and
`inventory.save()` via `Promise.all` with no session and no compensating
write; when the transaction save fails and the item save succeeds, the store
is left with the item updated (quantity 5) and no transaction record — an
observable partial write, contradicting the claimed all-or-nothing guarantee. -/
theorem commit_partial_write :
    postTransaction ⟨0, 5, 100, 0, true⟩ ⟨"check-in", 5, none, 0⟩
      = .ok (⟨5, 5, 100, 0, true⟩, ⟨"check-in", 5, 0, 5, none, 0⟩)
    ∧ commitTransaction ⟨0, []⟩ ⟨5, 5, 100, 0, true⟩ ⟨"check-in", 5, 0, 5, none, 0⟩
        ⟨false, true⟩
      = ⟨5, []⟩
    ∧ (5 : Int) ≠ 0 :=
  ⟨rfl, rfl, by decide⟩
